import Mathlib

/-!
Shallow embedding of the trading-strategy backtester
(`src/indicators.py`, `src/strategies.py`, `src/evaluation.py`).

Prices and money amounts are modelled as exact rationals.  Pandas float
columns (which may hold `NaN` or infinities for unfilled rolling windows
and zero-range divisions) are modelled by the inductive type `PF` below,
with NaN-propagating arithmetic and NaN-rejecting comparisons, matching
pandas/NumPy elementwise semantics.
-/

/-- A pandas float cell: a finite rational, `NaN`, or a signed infinity. -/
inductive PF where
  | nan : PF
  | pinf : PF
  | ninf : PF
  | fin (q : ℚ) : PF
deriving DecidableEq

namespace PF

/-- IEEE-style subtraction on pandas float cells. -/
def sub : PF → PF → PF
  | nan, _ => nan
  | _, nan => nan
  | pinf, pinf => nan
  | pinf, ninf => pinf
  | pinf, fin _ => pinf
  | ninf, ninf => nan
  | ninf, pinf => ninf
  | ninf, fin _ => ninf
  | fin _, pinf => ninf
  | fin _, ninf => pinf
  | fin a, fin b => fin (a - b)

/-- IEEE-style multiplication on pandas float cells. -/
def mul : PF → PF → PF
  | nan, _ => nan
  | _, nan => nan
  | pinf, pinf => pinf
  | pinf, ninf => ninf
  | ninf, pinf => ninf
  | ninf, ninf => pinf
  | pinf, fin b => if b = 0 then nan else if 0 < b then pinf else ninf
  | ninf, fin b => if b = 0 then nan else if 0 < b then ninf else pinf
  | fin a, pinf => if a = 0 then nan else if 0 < a then pinf else ninf
  | fin a, ninf => if a = 0 then nan else if 0 < a then ninf else pinf
  | fin a, fin b => fin (a * b)

/-- IEEE-style division on pandas float cells. -/
def div : PF → PF → PF
  | nan, _ => nan
  | _, nan => nan
  | pinf, pinf => nan
  | pinf, ninf => nan
  | ninf, pinf => nan
  | ninf, ninf => nan
  | pinf, fin b => if 0 ≤ b then pinf else ninf
  | ninf, fin b => if 0 ≤ b then ninf else pinf
  | fin _, pinf => fin 0
  | fin _, ninf => fin 0
  | fin a, fin b =>
      if b = 0 then (if a = 0 then nan else if 0 < a then pinf else ninf)
      else fin (a / b)

/-- Pandas elementwise `<`: any comparison with `NaN` is `False`. -/
def lt : PF → PF → Bool
  | nan, _ => false
  | _, nan => false
  | pinf, _ => false
  | ninf, pinf => true
  | ninf, ninf => false
  | ninf, fin _ => true
  | fin _, pinf => true
  | fin _, ninf => false
  | fin a, fin b => decide (a < b)

/-- Pandas elementwise `<=`: any comparison with `NaN` is `False`. -/
def le : PF → PF → Bool
  | nan, _ => false
  | _, nan => false
  | pinf, pinf => true
  | pinf, _ => false
  | ninf, _ => true
  | fin _, pinf => true
  | fin _, ninf => false
  | fin a, fin b => decide (a ≤ b)

/-- Pandas elementwise `>` (flipped `<`). -/
def gt (a b : PF) : Bool := lt b a

/-- Pandas elementwise `!=`: `NaN != x` is `True` for every `x`. -/
def ne : PF → PF → Bool
  | nan, _ => true
  | _, nan => true
  | pinf, pinf => false
  | ninf, ninf => false
  | pinf, _ => true
  | ninf, _ => true
  | fin _, pinf => true
  | fin _, ninf => true
  | fin a, fin b => decide (a ≠ b)

end PF

/-! ### Indicator engine (`src/indicators.py`) -/

/-- The trailing window of length `n` ending at row `i` (rows `i-n+1 .. i`). -/
def windowSlice (xs : List ℚ) (n i : Nat) : List ℚ :=
  (xs.drop (i + 1 - n)).take n

/-- Pandas `Series.rolling(window=n).mean()` at row `i`: `NaN` until the window fills. -/
def rollingMean (xs : List ℚ) (n i : Nat) : PF :=
  if n ≤ i + 1 ∧ i < xs.length then
    PF.fin ((windowSlice xs n i).sum / (n : ℚ))
  else PF.nan

/-- Pandas `Series.rolling(window=n).max()` at row `i`: `NaN` until the window fills. -/
def rollingMax (xs : List ℚ) (n i : Nat) : PF :=
  if n ≤ i + 1 ∧ i < xs.length then
    match (windowSlice xs n i).max? with
    | some m => PF.fin m
    | none => PF.nan
  else PF.nan

/-- Pandas `Series.rolling(window=n).min()` at row `i`: `NaN` until the window fills. -/
def rollingMin (xs : List ℚ) (n i : Nat) : PF :=
  if n ≤ i + 1 ∧ i < xs.length then
    match (windowSlice xs n i).min? with
    | some m => PF.fin m
    | none => PF.nan
  else PF.nan

/-- First Williams line of `add_indicators`:
`-100 * (highest_high - Close) / (highest_high - lowest_low)`. -/
def williamsRaw (highs lows closes : List ℚ) (n i : Nat) : PF :=
  PF.div
    (PF.mul (PF.fin (-100)) (PF.sub (rollingMax highs n i) (PF.fin (closes.getD i 0))))
    (PF.sub (rollingMax highs n i) (rollingMin lows n i))

/-- Second Williams line of `add_indicators`:
`.where(highest_high != lowest_low, 0)` keeps the raw value where the
rolling range is nonzero and forces `0` elsewhere. -/
def williams (highs lows closes : List ℚ) (n i : Nat) : PF :=
  if PF.ne (rollingMax highs n i) (rollingMin lows n i) then
    williamsRaw highs lows closes n i
  else PF.fin 0

/-- Function `calculate_stop_loss` from `src/indicators.py`:
`(entry_price - current_price) / entry_price >= stop_loss_ratio`. -/
def calculate_stop_loss (entry_price current_price stop_loss_ratio : ℚ) : Bool :=
  decide (stop_loss_ratio ≤ (entry_price - current_price) / entry_price)

/-! ### Data model -/

/-- The OHLC price table handed to a simulator (one list per column);
`times` carries the `Datetime` column as opaque tags. -/
structure Bars where
  opens : List ℚ
  highs : List ℚ
  lows : List ℚ
  closes : List ℚ
  times : List Nat
deriving DecidableEq

/-- Row count `len(df)`: number of rows of the price table. -/
def Bars.len (D : Bars) : Nat := D.closes.length

def openAt (D : Bars) (i : Nat) : ℚ := D.opens.getD i 0
def closeAt (D : Bars) (i : Nat) : ℚ := D.closes.getD i 0
def timeAt (D : Bars) (i : Nat) : Nat := D.times.getD i 0

/-- Parameter bundle shared by the four `simulate_strategy_*` functions. -/
structure Params where
  ma_short : Nat
  ma_long : Nat
  will_period_1 : Nat
  will_buy_threshold_1 : ℚ
  will_period_2 : Nat
  will_sell_threshold_2 : ℚ
  stop_loss : ℚ
  initial_capital : ℚ
deriving DecidableEq

/-- The `MA_Short_{ma_short}` indicator column. -/
def maShortCol (D : Bars) (P : Params) (i : Nat) : PF :=
  rollingMean D.closes P.ma_short i

/-- The `MA_Long_{ma_long}` indicator column. -/
def maLongCol (D : Bars) (P : Params) (i : Nat) : PF :=
  rollingMean D.closes P.ma_long i

/-- The `Williams_1_{will_period_1}` indicator column. -/
def williams1Col (D : Bars) (P : Params) (i : Nat) : PF :=
  williams D.highs D.lows D.closes P.will_period_1 i

/-- The `Williams_2_{will_period_2}` indicator column. -/
def williams2Col (D : Bars) (P : Params) (i : Nat) : PF :=
  williams D.highs D.lows D.closes P.will_period_2 i

/-- One realized trade record, as appended by `execute_trade`. -/
structure Trade where
  entry_time : Option Nat
  exit_time : Nat
  entry_price : ℚ
  exit_price : ℚ
  entry_index : Nat
  exit_index : Nat
  profit : ℚ
  capital : ℚ
  entry_fee : ℚ
  exit_fee : ℚ
  exit_reason : String
deriving DecidableEq

/-! ### Trade ledger (`execute_trade`, `src/strategies.py`) -/

/-- Function `execute_trade`: fee-adjusted accounting for one closed position.
Returns the extended trade list and the updated capital. -/
def execute_trade (trades : List Trade) (capital entry_price exit_price : ℚ)
    (entry_time : Option Nat) (exit_time : Nat) (entry_index exit_index : Nat)
    (volume fee_rate : ℚ) (exit_reason : String) : List Trade × ℚ :=
  let entry_fee := entry_price * volume * fee_rate
  let exit_fee := exit_price * volume * fee_rate
  let capital1 := capital - entry_fee
  let profit := (exit_price - entry_price) * volume
  let net_profit := profit - exit_fee
  let capital2 := capital1 + net_profit
  let trade_record : Trade :=
    { entry_time := entry_time
      exit_time := exit_time
      entry_price := entry_price
      exit_price := exit_price
      entry_index := entry_index
      exit_index := exit_index
      profit := net_profit
      capital := capital2
      entry_fee := entry_fee
      exit_fee := exit_fee
      exit_reason := exit_reason }
  (trades ++ [trade_record], capital2)

/-- Default `volume=200`, the default trade size used by all four simulators. -/
def defaultVolume : ℚ := 200

/-- Default `fee_rate=0.00002`, the default fee rate used by all four simulators. -/
def defaultFeeRate : ℚ := 2 / 100000

/-! ### Strategy simulator (`simulate_strategy_1..4`, `src/strategies.py`) -/

/-- The two entry-predicate variants: MA golden cross (strategies 1, 2) or
price above the short MA (strategies 3, 4). -/
inductive EntryKind where
  | cross : EntryKind
  | price : EntryKind
deriving DecidableEq

/-- The two trend-exit variants: MA death cross (strategies 1, 3) or
price below the long MA (strategies 2, 4). -/
inductive ExitKind where
  | cross : ExitKind
  | price : ExitKind
deriving DecidableEq

/-- The variant-specific trend half of the entry condition at bar `i`. -/
def entryTrend (k : EntryKind) (D : Bars) (P : Params) (i : Nat) : Bool :=
  match k with
  | .cross =>
      PF.gt (maShortCol D P i) (maLongCol D P i) &&
      PF.le (maShortCol D P (i - 1)) (maLongCol D P (i - 1))
  | .price =>
      PF.gt (PF.fin (closeAt D i)) (maShortCol D P i)

/-- Condition `williams_oversold`: entry Williams oscillator below the buy threshold. -/
def williamsOversold (D : Bars) (P : Params) (i : Nat) : Bool :=
  PF.lt (williams1Col D P i) (PF.fin P.will_buy_threshold_1)

/-- The variant-specific trend exit condition at bar `i`. -/
def exitTrend (k : ExitKind) (D : Bars) (P : Params) (i : Nat) : Bool :=
  match k with
  | .cross => PF.lt (maShortCol D P i) (maLongCol D P i)
  | .price => PF.lt (PF.fin (closeAt D i)) (maLongCol D P i)

/-- The `exit_reason` string recorded for the variant's trend exit. -/
def exitTrendReason : ExitKind → String
  | .cross => "death_cross"
  | .price => "price_below_long_ma"

/-- Condition `williams_overbought`: exit Williams oscillator above the sell threshold. -/
def williamsOverbought (D : Bars) (P : Params) (i : Nat) : Bool :=
  PF.gt (williams2Col D P i) (PF.fin P.will_sell_threshold_2)

/-- Mutable loop state of a simulator: `position` (0 = flat, 1 = long),
running capital, accumulated trades, and the open-position bookkeeping. -/
structure SimState where
  position : Nat
  capital : ℚ
  trades : List Trade
  entry_price : ℚ
  entry_time : Option Nat
  entry_index : Nat
deriving DecidableEq

/-- The state before the per-bar loop starts. -/
def initState (P : Params) : SimState :=
  { position := 0
    capital := P.initial_capital
    trades := []
    entry_price := 0
    entry_time := none
    entry_index := 0 }

/-- One iteration of the per-bar loop body shared by the four simulators,
at loop index `i`. -/
def stepFn (k₁ : EntryKind) (k₂ : ExitKind) (D : Bars) (P : Params)
    (st : SimState) (i : Nat) : SimState :=
  if st.position == 0 && decide (max P.ma_long P.will_period_1 ≤ i) then
    if entryTrend k₁ D P i && williamsOversold D P i then
      { st with
        position := 1
        entry_price := openAt D (i + 1)
        entry_time := some (timeAt D (i + 1))
        entry_index := i + 1 }
    else st
  else if st.position == 1 then
    let current_price := closeAt D i
    let stop_loss_triggered := calculate_stop_loss st.entry_price current_price P.stop_loss
    let trend_exit := exitTrend k₂ D P i
    let will_exit := williamsOverbought D P i
    if stop_loss_triggered || trend_exit || will_exit then
      let reason :=
        if stop_loss_triggered then "stop_loss"
        else if trend_exit then exitTrendReason k₂
        else "williams_overbought"
      let r := execute_trade st.trades st.capital st.entry_price (openAt D (i + 1))
        st.entry_time (timeAt D (i + 1)) st.entry_index (i + 1)
        defaultVolume defaultFeeRate reason
      { st with position := 0, trades := r.1, capital := r.2 }
    else st
  else st

/-- State after the loop has processed bar indices `1, 2, ..., m` in order
(the Python loop `for i in range(1, len(df) - 1)` truncated after `m`). -/
def scanUpTo (k₁ : EntryKind) (k₂ : ExitKind) (D : Bars) (P : Params) : Nat → SimState
  | 0 => initState P
  | m + 1 => stepFn k₁ k₂ D P (scanUpTo k₁ k₂ D P m) (m + 1)

/-- State after the whole per-bar scan (`i` up to `len(df) - 2` inclusive). -/
def scanBars (k₁ : EntryKind) (k₂ : ExitKind) (D : Bars) (P : Params) : SimState :=
  scanUpTo k₁ k₂ D P (D.len - 2)

/-- A full simulator run: scan, end-of-data flush, and the returned triple
`(trades, returns series keyed by exit_time, final capital)`. -/
def simulateStrategy (k₁ : EntryKind) (k₂ : ExitKind) (D : Bars) (P : Params) :
    List Trade × List (Nat × ℚ) × ℚ :=
  let st := scanBars k₁ k₂ D P
  let out :=
    if st.position == 1 && decide (1 < D.len) then
      execute_trade st.trades st.capital st.entry_price (closeAt D (D.len - 1))
        st.entry_time (timeAt D (D.len - 1)) st.entry_index (D.len - 1)
        defaultVolume defaultFeeRate "end_of_data"
    else (st.trades, st.capital)
  (out.1, out.1.map (fun t => (t.exit_time, t.profit)), out.2)

/-- Function `simulate_strategy_1`: golden-cross entry, death-cross exit. -/
def simulate_strategy_1 (D : Bars) (P : Params) : List Trade × List (Nat × ℚ) × ℚ :=
  simulateStrategy .cross .cross D P

/-- Function `simulate_strategy_2`: golden-cross entry, price-below-long-MA exit. -/
def simulate_strategy_2 (D : Bars) (P : Params) : List Trade × List (Nat × ℚ) × ℚ :=
  simulateStrategy .cross .price D P

/-- Function `simulate_strategy_3`: price-above-short-MA entry, death-cross exit. -/
def simulate_strategy_3 (D : Bars) (P : Params) : List Trade × List (Nat × ℚ) × ℚ :=
  simulateStrategy .price .cross D P

/-- Function `simulate_strategy_4`: price-above-short-MA entry, price-below-long-MA exit. -/
def simulate_strategy_4 (D : Bars) (P : Params) : List Trade × List (Nat × ℚ) × ℚ :=
  simulateStrategy .price .price D P

/-! ### Performance evaluator (`src/evaluation.py`) -/

/-- NumPy `np.mean` of a list (callers guard the empty case). -/
def npMean (xs : List ℚ) : ℚ :=
  if xs = [] then 0 else xs.sum / (xs.length : ℚ)

/-- NumPy `np.median` of a list: middle element of the sorted list, or the average
of the two middle elements for even length (callers guard the empty case). -/
def npMedian (xs : List ℚ) : ℚ :=
  let s := xs.insertionSort (· ≤ ·)
  if xs = [] then 0
  else if xs.length % 2 = 1 then s.getD (xs.length / 2) 0
  else (s.getD (xs.length / 2 - 1) 0 + s.getD (xs.length / 2) 0) / 2

/-- Sample variance with `ddof=1`, the square of `np.std(xs, ddof=1)`. -/
def sampleVariance (xs : List ℚ) : ℚ :=
  (xs.map (fun x => (x - npMean xs) ^ 2)).sum / ((xs.length : ℚ) - 1)

/-- Function `calculate_win_rate`: fraction of trades with positive profit. -/
def calculate_win_rate (trades : List Trade) : ℚ :=
  if trades = [] then 0
  else ((trades.filter (fun t => 0 < t.profit)).length : ℚ) / (trades.length : ℚ)

/-- Function `calculate_msr`: robust Sharpe ratio `(median - rf) / MAD`. -/
def calculate_msr (returns : List ℚ) (rf : ℚ) : ℚ :=
  if returns.length < 2 then 0
  else
    let median_return := npMedian returns
    let mad := npMedian (returns.map (fun r => |r - median_return|))
    if mad = 0 then 0 else (median_return - rf) / mad

/-- Function `calculate_sharpe_ratio`: `(mean - rf) / np.std(returns, ddof=1)`.  The
guard `std == 0` in the source is equivalent to the variance being zero. -/
noncomputable def calculate_sharpe_ratio (returns : List ℚ) (rf : ℚ) : ℝ :=
  if returns.length < 2 then 0
  else if sampleVariance returns = 0 then 0
  else ((npMean returns : ℚ) - rf : ℚ) / Real.sqrt ((sampleVariance returns : ℚ) : ℝ)

/-- Cumulative running product (`Series.cumprod`), with accumulator `acc`. -/
def cumProd (acc : ℚ) : List ℚ → List ℚ
  | [] => []
  | x :: xs => (acc * x) :: cumProd (acc * x) xs

/-- Expanding running maximum (`Series.expanding().max()`), seeded by `m`. -/
def runningMaxFrom (m : ℚ) : List ℚ → List ℚ
  | [] => []
  | x :: xs => max m x :: runningMaxFrom (max m x) xs

/-- Pandas `Series.expanding().max()`: at each row, the maximum so far. -/
def expandingMax : List ℚ → List ℚ
  | [] => []
  | x :: xs => x :: runningMaxFrom x xs

/-- Function `calculate_max_drawdown`: `abs(min((cum - runmax) / runmax))` over the
cumulative product of `1 + returns`. -/
def calculate_max_drawdown (returns : List ℚ) : ℚ :=
  if returns = [] then 0
  else
    let cumulative := cumProd 1 (returns.map (fun r => 1 + r))
    let running_max := expandingMax cumulative
    let drawdown := List.zipWith (fun c m => (c - m) / m) cumulative running_max
    |(drawdown.min?.getD 0)|

/-- Function `calculate_profit_factor`: gross profit over absolute gross loss, with
`+inf` when there are no losses but positive profit. -/
def calculate_profit_factor (trades : List Trade) : PF :=
  if trades = [] then PF.fin 0
  else
    let gross_profit := ((trades.filter (fun t => 0 < t.profit)).map Trade.profit).sum
    let gross_loss := |((trades.filter (fun t => t.profit < 0)).map Trade.profit).sum|
    if gross_loss = 0 then (if 0 < gross_profit then PF.pinf else PF.fin 0)
    else PF.fin (gross_profit / gross_loss)

/-- Function `calculate_expectancy`: mean trade profit. -/
def calculate_expectancy (trades : List Trade) : ℚ :=
  if trades = [] then 0 else npMean (trades.map Trade.profit)

/-- Function `calculate_risk_reward_ratio`: average win over absolute average loss. -/
def calculate_risk_reward_ratio (trades : List Trade) : PF :=
  if trades = [] then PF.fin 0
  else
    let profits := (trades.filter (fun t => 0 < t.profit)).map Trade.profit
    let losses := (trades.filter (fun t => t.profit < 0)).map Trade.profit
    if profits = [] ∨ losses = [] then PF.fin 0
    else
      let avg_profit := npMean profits
      let avg_loss := |npMean losses|
      if avg_loss = 0 then (if 0 < avg_profit then PF.pinf else PF.fin 0)
      else PF.fin (avg_profit / avg_loss)

/-- Python `Counter(exit_reasons)` rendered as an association list of counts. -/
def reasonCounts (trades : List Trade) : List (String × Nat) :=
  let reasons := trades.map Trade.exit_reason
  reasons.dedup.map (fun s => (s, (reasons.filter (fun r => r = s)).length))

/-- Function `calculate_additional_metrics`: average hold time in bars, exit-reason
counts, and the mean of the five shortest / five longest hold times. -/
def calculate_additional_metrics (trades : List Trade) :
    ℚ × List (String × Nat) × ℚ × ℚ :=
  if trades = [] then (0, [], 0, 0)
  else
    let durations := trades.map (fun t => (t.exit_index - t.entry_index : ℚ))
    let avg_duration := npMean durations
    let sorted_durations := durations.insertionSort (· ≤ ·)
    let shortest_5_avg :=
      if 5 ≤ sorted_durations.length then npMean (sorted_durations.take 5) else 0
    let longest_5_avg :=
      if 5 ≤ sorted_durations.length then
        npMean (sorted_durations.drop (sorted_durations.length - 5)) else 0
    (avg_duration, reasonCounts trades, shortest_5_avg, longest_5_avg)

/-- Block `returns_stats` block of the report (`std` needs a real square root). -/
structure ReturnsStats where
  mean : ℚ
  std : ℝ
  min : ℚ
  max : ℚ
  median : ℚ
  mad : ℚ

/-- Function `calculate_returns_stats`: mean, sample std, min and max of the returns. -/
noncomputable def calculate_returns_stats (returns : List ℚ) : ℚ × ℝ × ℚ × ℚ :=
  if returns = [] then (0, 0, 0, 0)
  else
    (npMean returns,
     if 1 < returns.length then Real.sqrt ((sampleVariance returns : ℚ) : ℝ) else 0,
     returns.min?.getD 0,
     returns.max?.getD 0)

/-- Function `calculate_median_and_mad`: median return and median absolute deviation. -/
def calculate_median_and_mad (returns : List ℚ) : ℚ × ℚ :=
  if returns = [] then (0, 0)
  else
    let median_return := npMedian returns
    (median_return, npMedian (returns.map (fun r => |r - median_return|)))

/-- The performance-report dictionary returned by
`generate_performance_report`.  `shortest_5_avg`/`longest_5_avg` are absent
(`none`) in the empty-trade-list branch of the source. -/
structure Report where
  strategy_name : String
  trade_count : Nat
  win_rate : ℚ
  final_capital : ℚ
  total_return : ℚ
  msr : ℚ
  sharpe_ratio : ℝ
  max_drawdown : ℚ
  profit_factor : PF
  expectancy : ℚ
  risk_reward_ratio : PF
  avg_duration : ℚ
  shortest_5_avg : Option ℚ
  longest_5_avg : Option ℚ
  exit_reasons : List (String × Nat)
  returns_stats : ReturnsStats

/-- Default `rf = 0.04 / 240`, the default risk-free rate of both Sharpe variants. -/
def defaultRf : ℚ := (4 / 100) / 240

/-- Function `generate_performance_report`: the full report, with the hard-coded
constant block for an empty trade list. -/
noncomputable def generate_performance_report (trades : List Trade)
    (returns : List ℚ) (strategy_name : String) : Report :=
  if trades = [] then
    { strategy_name := strategy_name
      trade_count := 0
      win_rate := 0
      final_capital := 1000000
      total_return := 0
      msr := 0
      sharpe_ratio := 0
      max_drawdown := 0
      profit_factor := PF.fin 0
      expectancy := 0
      risk_reward_ratio := PF.fin 0
      avg_duration := 0
      shortest_5_avg := none
      longest_5_avg := none
      exit_reasons := []
      returns_stats := { mean := 0, std := 0, min := 0, max := 0, median := 0, mad := 0 } }
  else
    let final_capital := ((trades.getLast?).map Trade.capital).getD 1000000
    let stats := calculate_returns_stats returns
    let mm := calculate_median_and_mad returns
    let extra := calculate_additional_metrics trades
    { strategy_name := strategy_name
      trade_count := trades.length
      win_rate := calculate_win_rate trades
      final_capital := final_capital
      total_return := (final_capital - 1000000) / 1000000
      msr := calculate_msr returns defaultRf
      sharpe_ratio := calculate_sharpe_ratio returns defaultRf
      max_drawdown := calculate_max_drawdown returns
      profit_factor := calculate_profit_factor trades
      expectancy := calculate_expectancy trades
      risk_reward_ratio := calculate_risk_reward_ratio trades
      avg_duration := extra.1
      shortest_5_avg := some extra.2.2.1
      longest_5_avg := some extra.2.2.2
      exit_reasons := extra.2.1
      returns_stats :=
        { mean := stats.1
          std := stats.2.1
          min := stats.2.2.1
          max := stats.2.2.2
          median := mm.1
          mad := mm.2 } }

/-! ### Loop invariants of the simulator -/

/-- The entry eligibility gate `max(ma_long, will_period_1)` of the scan loop. -/
def gateOf (P : Params) : Nat := max P.ma_long P.will_period_1

/-- Loop invariant after the scan has processed bar indices `1 .. m`: every
recorded trade exits strictly after it entered, and an open position was
filled at a bar index in `(gateOf P, m + 1]`. -/
def SimInv (P : Params) (m : Nat) (st : SimState) : Prop :=
  (∀ t ∈ st.trades, t.entry_index < t.exit_index) ∧
  (st.position = 1 → gateOf P + 1 ≤ st.entry_index ∧ st.entry_index ≤ m + 1)

lemma simInv_mono {P : Params} {m : Nat} {st : SimState} (h : SimInv P m st) :
    SimInv P (m + 1) st :=
  ⟨h.1, fun hp => ⟨(h.2 hp).1, Nat.le_succ_of_le (h.2 hp).2⟩⟩

lemma simInv_step (k₁ : EntryKind) (k₂ : ExitKind) (D : Bars) (P : Params)
    {st : SimState} {m : Nat} (h : SimInv P m st) :
    SimInv P (m + 1) (stepFn k₁ k₂ D P st (m + 1)) := by
  simp only [stepFn]
  split
  · next hcond =>
    split
    · refine ⟨h.1, fun _ => ⟨?_, ?_⟩⟩
      · have hg : st.position = 0 ∧ max P.ma_long P.will_period_1 ≤ m + 1 := by
          simpa using hcond
        simpa [gateOf] using Nat.succ_le_succ hg.2
      · simp
    · exact simInv_mono h
  · split
    · next hneg hpos =>
      have hp1 : st.position = 1 := by simpa using hpos
      split
      · constructor
        · intro t ht
          simp only [execute_trade, List.mem_append, List.mem_singleton] at ht
          rcases ht with ht | ht
          · exact h.1 t ht
          · subst ht
            have := (h.2 hp1).2
            simpa using Nat.lt_succ_of_le this
        · intro hp; simp at hp
      · exact simInv_mono h
    · exact simInv_mono h

lemma simInv_scan (k₁ : EntryKind) (k₂ : ExitKind) (D : Bars) (P : Params) :
    ∀ m : Nat, SimInv P m (scanUpTo k₁ k₂ D P m) := by
  intro m
  induction m with
  | zero =>
      refine ⟨?_, ?_⟩
      · intro t ht; simp [scanUpTo, initState] at ht
      · intro hp; simp [scanUpTo, initState] at hp
  | succ m ih => exact simInv_step k₁ k₂ D P ih

/-- Characterization of the exit branch of the loop body: while `Long`, any
true exit condition closes the position at the next bar's open, with the
reason chosen by the fixed stop-loss / trend / Williams priority. -/
lemma stepFn_exit (k₁ : EntryKind) (k₂ : ExitKind) (D : Bars) (P : Params)
    (st : SimState) (i : Nat) (hpos : st.position = 1)
    (hcond : (calculate_stop_loss st.entry_price (closeAt D i) P.stop_loss
      || exitTrend k₂ D P i || williamsOverbought D P i) = true) :
    (stepFn k₁ k₂ D P st i).position = 0 ∧
    ∃ rec : Trade,
      (stepFn k₁ k₂ D P st i).trades = st.trades ++ [rec] ∧
      rec.entry_index = st.entry_index ∧
      rec.exit_price = openAt D (i + 1) ∧
      rec.exit_index = i + 1 ∧
      rec.exit_time = timeAt D (i + 1) ∧
      rec.exit_reason =
        (if calculate_stop_loss st.entry_price (closeAt D i) P.stop_loss then "stop_loss"
         else if exitTrend k₂ D P i then exitTrendReason k₂
         else "williams_overbought") := by
  simp only [stepFn]
  rw [if_neg (by simp [hpos]), if_pos (by simp [hpos]), if_pos hcond]
  constructor
  · rfl
  · simp only [execute_trade]
    exact ⟨_, rfl, rfl, rfl, rfl, rfl, rfl⟩

/-! ### Claim theorems -/

/-- C1: for every call to `execute_trade`, the returned capital equals
`capital - entry_price*volume*fee_rate + (exit_price - entry_price)*volume
- exit_price*volume*fee_rate`, and the appended trade record's `profit`
field equals `(exit_price - entry_price)*volume - exit_price*volume*fee_rate`
(the entry fee is deducted from capital but not from the recorded profit). -/
theorem execute_trade_capital_profit :
    ∀ (trades : List Trade) (capital entry_price exit_price : ℚ) (entry_time : Option Nat)
      (exit_time : Nat) (entry_index exit_index : Nat) (volume fee_rate : ℚ) (reason : String),
      (execute_trade trades capital entry_price exit_price entry_time exit_time
          entry_index exit_index volume fee_rate reason).2 =
        capital - entry_price * volume * fee_rate + (exit_price - entry_price) * volume
          - exit_price * volume * fee_rate ∧
      ∃ rec : Trade,
        (execute_trade trades capital entry_price exit_price entry_time exit_time
            entry_index exit_index volume fee_rate reason).1 = trades ++ [rec] ∧
        rec.profit = (exit_price - entry_price) * volume - exit_price * volume * fee_rate := by
  intros trades capital entry_price exit_price entry_time exit_time entry_index exit_index
    volume fee_rate reason
  refine ⟨?_, ?_⟩
  · simp only [execute_trade]
    ring
  · simp only [execute_trade]
    exact ⟨_, rfl, rfl⟩

/-- C4: whenever the simulator is `Long` at bar `i` and at least one exit
condition holds, the position closes with fill price `open[i+1]` and
`exit_index = i+1` regardless of which conditions hold, and the recorded
`exit_reason` follows the fixed priority stop-loss, then the variant's
trend exit, then `williams_overbought`. -/
theorem exit_priority_and_fill (k₁ : EntryKind) (k₂ : ExitKind) (D : Bars) (P : Params)
    (st : SimState) (i : Nat) (hpos : st.position = 1)
    (hcond : (calculate_stop_loss st.entry_price (closeAt D i) P.stop_loss
      || exitTrend k₂ D P i || williamsOverbought D P i) = true) :
    (stepFn k₁ k₂ D P st i).position = 0 ∧
    ∃ rec : Trade,
      (stepFn k₁ k₂ D P st i).trades = st.trades ++ [rec] ∧
      rec.exit_price = openAt D (i + 1) ∧
      rec.exit_index = i + 1 ∧
      rec.exit_reason =
        (if calculate_stop_loss st.entry_price (closeAt D i) P.stop_loss then "stop_loss"
         else if exitTrend k₂ D P i then exitTrendReason k₂
         else "williams_overbought") := by
  obtain ⟨h0, rec, h1, _, h2, h3, _, h4⟩ := stepFn_exit k₁ k₂ D P st i hpos hcond
  exact ⟨h0, rec, h1, h2, h3, h4⟩

/-- C5: `calculate_stop_loss` returns true iff
`(entry_price - current_price) / entry_price >= stop_loss_ratio`; for a
positive ratio and a favorable or flat move (positive entry price) it is
false; and while `Long` a true stop-loss closes the position at that bar
with `exit_reason = "stop_loss"` regardless of the other two predicates. -/
theorem stop_loss_spec :
    (∀ e c r : ℚ, calculate_stop_loss e c r = true ↔ r ≤ (e - c) / e) ∧
    (∀ e c r : ℚ, 0 < e → e ≤ c → 0 < r → calculate_stop_loss e c r = false) ∧
    (∀ (k₁ : EntryKind) (k₂ : ExitKind) (D : Bars) (P : Params) (st : SimState) (i : Nat),
      st.position = 1 →
      calculate_stop_loss st.entry_price (closeAt D i) P.stop_loss = true →
      (stepFn k₁ k₂ D P st i).position = 0 ∧
      ∃ rec : Trade,
        (stepFn k₁ k₂ D P st i).trades = st.trades ++ [rec] ∧
        rec.exit_reason = "stop_loss" ∧
        rec.exit_index = i + 1) := by
  refine ⟨?_, ?_, ?_⟩
  · intro e c r
    simp [calculate_stop_loss]
  · intro e c r he hc hr
    simp only [calculate_stop_loss, decide_eq_false_iff_not, not_le]
    have h1 : (e - c) / e ≤ 0 := div_nonpos_iff.mpr (Or.inr ⟨by linarith, he.le⟩)
    linarith
  · intro k₁ k₂ D P st i hpos hsl
    obtain ⟨h0, rec, h1, _, _, h3, _, h4⟩ :=
      stepFn_exit k₁ k₂ D P st i hpos (by simp [hsl])
    refine ⟨h0, rec, h1, ?_, h3⟩
    simpa [hsl] using h4

/-- C9: each of the four simulators is a deterministic function of its
inputs — two runs on identical bars and identical parameters return
identical trade lists, return series and final capital. -/
theorem simulators_deterministic :
    ∀ (D D' : Bars) (P P' : Params), D = D' → P = P' →
      simulate_strategy_1 D P = simulate_strategy_1 D' P' ∧
      simulate_strategy_2 D P = simulate_strategy_2 D' P' ∧
      simulate_strategy_3 D P = simulate_strategy_3 D' P' ∧
      simulate_strategy_4 D P = simulate_strategy_4 D' P' := by
  intro D D' P P' hD hP
  subst hD; subst hP
  exact ⟨rfl, rfl, rfl, rfl⟩

/-- C10: `generate_performance_report` on an empty trade list returns the
hard-coded block: `final_capital` is the constant `1000000` and
`total_return` is `0` whatever the simulation's actual initial capital was
(the report never sees it), every metric field is `0`, the exit-reason map
is empty, and the `shortest_5_avg`/`longest_5_avg` keys are absent. -/
theorem empty_report_constants :
    ∀ (returns : List ℚ) (name : String),
      (generate_performance_report [] returns name).strategy_name = name ∧
      (generate_performance_report [] returns name).trade_count = 0 ∧
      (generate_performance_report [] returns name).win_rate = 0 ∧
      (generate_performance_report [] returns name).final_capital = 1000000 ∧
      (generate_performance_report [] returns name).total_return = 0 ∧
      (generate_performance_report [] returns name).msr = 0 ∧
      (generate_performance_report [] returns name).sharpe_ratio = 0 ∧
      (generate_performance_report [] returns name).max_drawdown = 0 ∧
      (generate_performance_report [] returns name).profit_factor = PF.fin 0 ∧
      (generate_performance_report [] returns name).expectancy = 0 ∧
      (generate_performance_report [] returns name).risk_reward_ratio = PF.fin 0 ∧
      (generate_performance_report [] returns name).avg_duration = 0 ∧
      (generate_performance_report [] returns name).shortest_5_avg = none ∧
      (generate_performance_report [] returns name).longest_5_avg = none ∧
      (generate_performance_report [] returns name).exit_reasons = [] ∧
      (generate_performance_report [] returns name).returns_stats.mean = 0 ∧
      (generate_performance_report [] returns name).returns_stats.std = 0 ∧
      (generate_performance_report [] returns name).returns_stats.min = 0 ∧
      (generate_performance_report [] returns name).returns_stats.max = 0 ∧
      (generate_performance_report [] returns name).returns_stats.median = 0 ∧
      (generate_performance_report [] returns name).returns_stats.mad = 0 := by
  intro returns name
  simp [generate_performance_report]

/-- C2 (amended): every recorded trade satisfies
`entry_index ≤ exit_index`, and strictly `entry_index < exit_index` for
every trade not closed by the end-of-data flush.  (Equality can occur when
the entry fill lands on the final bar and is immediately flushed.) -/
theorem trade_entry_le_exit (k₁ : EntryKind) (k₂ : ExitKind) (D : Bars) (P : Params) :
    ∀ t ∈ (simulateStrategy k₁ k₂ D P).1,
      t.entry_index ≤ t.exit_index ∧
      (t.exit_reason ≠ "end_of_data" → t.entry_index < t.exit_index) := by
  intro t ht
  have hinv := simInv_scan k₁ k₂ D P (D.len - 2)
  simp only [simulateStrategy, scanBars] at ht
  split at ht
  · next hcond =>
    have hc : (scanUpTo k₁ k₂ D P (D.len - 2)).position = 1 ∧ 1 < D.len := by
      simpa using hcond
    simp only [execute_trade, List.mem_append, List.mem_singleton] at ht
    rcases ht with ht | ht
    · have := hinv.1 t ht
      exact ⟨Nat.le_of_lt this, fun _ => this⟩
    · subst ht
      have h2 := (hinv.2 hc.1).2
      have hlen := hc.2
      refine ⟨?_, ?_⟩
      · simp only []
        omega
      · intro hne
        simp at hne
  · have := hinv.1 t ht
    exact ⟨Nat.le_of_lt this, fun _ => this⟩

/-- Bars on which strategy 1 fires its entry signal at the last scanned bar
`i = len - 2`, so the fill lands on the final bar and is immediately
flushed: closes `10, 9, 10, 8` give a golden cross at `i = 2` (short MA 10
against long MA 9.5 after 9 against 9.5), and the zero-range bar 2 pins
the entry Williams oscillator to `0`. -/
def flushBars : Bars :=
  { opens := [10, 10, 10, 7]
    highs := [10, 9, 10, 8]
    lows := [10, 9, 10, 8]
    closes := [10, 9, 10, 8]
    times := [0, 1, 2, 3] }

/-- Parameters for `flushBars`: `ma_short=1`, `ma_long=2`, both Williams
periods `1`, buy threshold `1`, sell threshold `0`, stop-loss `5%`. -/
def flushParams : Params :=
  { ma_short := 1
    ma_long := 2
    will_period_1 := 1
    will_buy_threshold_1 := 1
    will_period_2 := 1
    will_sell_threshold_2 := 0
    stop_loss := 1 / 20
    initial_capital := 1000000 }

/-- The scan over `flushBars` ends still `Long` with `entry_index = 3`. -/
lemma flushBars_scan :
    scanBars .cross .cross flushBars flushParams =
      { position := 1
        capital := 1000000
        trades := []
        entry_price := 7
        entry_time := some 3
        entry_index := 3 } := by
  norm_num [scanBars, scanUpTo, stepFn, initState, entryTrend, williamsOversold,
    maShortCol, maLongCol, williams1Col, williams2Col, williams, williamsRaw,
    rollingMean, rollingMax, rollingMin, windowSlice, PF.gt, PF.lt, PF.le, PF.ne,
    PF.sub, PF.mul, PF.div, openAt, closeAt, timeAt, calculate_stop_loss, exitTrend,
    williamsOverbought, exitTrendReason, execute_trade, Bars.len, flushBars,
    flushParams, defaultVolume, defaultFeeRate, List.max?, List.min?]

/-- The complete trade list of strategy 1 on `flushBars`: one flushed trade
whose entry and exit indices are both `3`. -/
lemma flushBars_trades :
    (simulateStrategy .cross .cross flushBars flushParams).1 =
      [{ entry_time := some 3
         exit_time := 3
         entry_price := 7
         exit_price := 8
         entry_index := 3
         exit_index := 3
         profit := 24996 / 125
         capital := 50009997 / 50
         entry_fee := 7 / 250
         exit_fee := 4 / 125
         exit_reason := "end_of_data" }] := by
  simp only [simulateStrategy, flushBars_scan]
  norm_num [execute_trade, closeAt, timeAt, flushBars, Bars.len, defaultVolume,
    defaultFeeRate]

/-- C2, the claim as stated, is false: on `flushBars` the end-of-data flush
produces a trade with `exit_index = entry_index = 3`. -/
theorem trade_exit_gt_entry_fails :
    ¬ ∀ t ∈ (simulate_strategy_1 flushBars flushParams).1,
        t.entry_index < t.exit_index := by
  intro h
  have hmem := h _ (by rw [simulate_strategy_1, flushBars_trades]; exact List.mem_singleton.mpr rfl)
  simp at hmem

/-- Witness for C2 (amended) at the flushed trade of `flushBars`. -/
theorem trade_entry_le_exit_witness :
    (3 : Nat) ≤ 3 ∧ ("end_of_data" ≠ "end_of_data" → (3 : Nat) < 3) :=
  trade_entry_le_exit .cross .cross flushBars flushParams _
    (by rw [flushBars_trades]; exact List.mem_singleton.mpr rfl)

/-- The loop body evaluates the entry predicates (reading both moving
averages and the entry Williams oscillator) at scan index `i` exactly when
the state is flat and the eligibility gate `i >= max(ma_long, will_period_1)`
holds. -/
def entryEvalAt (k₁ : EntryKind) (k₂ : ExitKind) (D : Bars) (P : Params) (i : Nat) : Prop :=
  1 ≤ i ∧ i ≤ D.len - 2 ∧
  (scanUpTo k₁ k₂ D P (i - 1)).position = 0 ∧ gateOf P ≤ i

/-- The loop body evaluates the exit predicates (reading both moving
averages and the exit Williams oscillator) at scan index `i` exactly when
the state is `Long` when iteration `i` starts. -/
def exitEvalAt (k₁ : EntryKind) (k₂ : ExitKind) (D : Bars) (P : Params) (i : Nat) : Prop :=
  1 ≤ i ∧ i ≤ D.len - 2 ∧ (scanUpTo k₁ k₂ D P (i - 1)).position = 1

/-- Bars and parameters on which strategy 1 enters at scan index 2 and so
evaluates its exit predicates — reading the exit Williams oscillator with
`will_period_2 = 10` — already at scan index 3. -/
def lateWillBars : Bars :=
  { opens := [10, 10, 10, 7, 7]
    highs := [10, 9, 10, 8, 8]
    lows := [10, 9, 10, 8, 8]
    closes := [10, 9, 10, 8, 8]
    times := [0, 1, 2, 3, 4] }

/-- Parameters for `lateWillBars`, with an exit Williams period of 10 —
far larger than the entry gate `max(ma_long, will_period_1) = 2`. -/
def lateWillParams : Params :=
  { ma_short := 1
    ma_long := 2
    will_period_1 := 1
    will_buy_threshold_1 := 1
    will_period_2 := 10
    will_sell_threshold_2 := 0
    stop_loss := 1 / 20
    initial_capital := 1000000 }

/-- After scan indices 1 and 2, strategy 1 on `lateWillBars` is `Long`. -/
lemma lateWillBars_scan2 :
    (scanUpTo .cross .cross lateWillBars lateWillParams 2).position = 1 := by
  norm_num [scanUpTo, stepFn, initState, entryTrend, williamsOversold,
    maShortCol, maLongCol, williams1Col, williams2Col, williams, williamsRaw,
    rollingMean, rollingMax, rollingMin, windowSlice, PF.gt, PF.lt, PF.le, PF.ne,
    PF.sub, PF.mul, PF.div, openAt, closeAt, timeAt, calculate_stop_loss, exitTrend,
    williamsOverbought, exitTrendReason, execute_trade, Bars.len, lateWillBars,
    lateWillParams, defaultVolume, defaultFeeRate, List.max?, List.min?]

/-- C3, the claim as stated, is false: on `lateWillBars` the simulator
evaluates its exit predicates (reading the exit Williams oscillator) at
scan index 3, below `max(ma_long, will_period_1, will_period_2) = 10`. -/
theorem indicator_read_below_full_lookback :
    exitEvalAt .cross .cross lateWillBars lateWillParams 3 ∧
    ¬ max (gateOf lateWillParams) lateWillParams.will_period_2 ≤ 3 := by
  refine ⟨⟨by norm_num, by norm_num [Bars.len, lateWillBars], ?_⟩, ?_⟩
  · exact lateWillBars_scan2
  · norm_num [gateOf, lateWillParams]

/-- C3 (amended): every index at which the loop body evaluates an entry or
an exit predicate is at least the entry gate `max(ma_long, will_period_1)`;
the exit-side Williams oscillator may however be read below its own
`will_period_2` lookback (where it is `NaN` and comparisons are false). -/
theorem indicator_reads_respect_entry_gate (k₁ : EntryKind) (k₂ : ExitKind)
    (D : Bars) (P : Params) (i : Nat)
    (h : entryEvalAt k₁ k₂ D P i ∨ exitEvalAt k₁ k₂ D P i) :
    gateOf P ≤ i := by
  rcases h with h | h
  · exact h.2.2.2
  · obtain ⟨h1, _, h3⟩ := h
    obtain ⟨ha, hb⟩ := (simInv_scan k₁ k₂ D P (i - 1)).2 h3
    omega

/-- Witness for C3 (amended) at the exit evaluation of `lateWillBars`. -/
theorem indicator_reads_respect_entry_gate_witness :
    gateOf lateWillParams ≤ 3 :=
  indicator_reads_respect_entry_gate .cross .cross lateWillBars lateWillParams 3
    (Or.inr ⟨by norm_num, by norm_num [Bars.len, lateWillBars], lateWillBars_scan2⟩)

/-- C6: if the scan ends still `Long` and the series has more than one bar,
exactly one further trade is appended, with `exit_reason = "end_of_data"`,
`exit_price` the final bar's close (not an open), and
`exit_index = len(bars) - 1`. -/
theorem end_of_data_flush (k₁ : EntryKind) (k₂ : ExitKind) (D : Bars) (P : Params)
    (hpos : (scanBars k₁ k₂ D P).position = 1) (hlen : 1 < D.len) :
    ∃ rec : Trade,
      (simulateStrategy k₁ k₂ D P).1 = (scanBars k₁ k₂ D P).trades ++ [rec] ∧
      rec.exit_reason = "end_of_data" ∧
      rec.exit_price = closeAt D (D.len - 1) ∧
      rec.exit_index = D.len - 1 := by
  simp only [simulateStrategy]
  rw [if_pos (by simp [hpos, hlen])]
  simp only [execute_trade]
  exact ⟨_, rfl, rfl, rfl, rfl⟩

/-- Witness for C6 on `flushBars`, where the scan ends `Long`. -/
theorem end_of_data_flush_witness :
    ∃ rec : Trade,
      (simulateStrategy .cross .cross flushBars flushParams).1 =
        (scanBars .cross .cross flushBars flushParams).trades ++ [rec] ∧
      rec.exit_reason = "end_of_data" ∧
      rec.exit_price = closeAt flushBars (flushBars.len - 1) ∧
      rec.exit_index = flushBars.len - 1 :=
  end_of_data_flush .cross .cross flushBars flushParams
    (by rw [flushBars_scan]) (by norm_num [Bars.len, flushBars])

/-- C7: whenever a Williams rolling window is full and its highest high
equals its lowest low, the published oscillator value is exactly `0` —
never `NaN` and never a division error; and when the range is nonzero the
value is the honest finite quotient of the Williams formula. -/
theorem williams_zero_range (highs lows closes : List ℚ) (n i : Nat) :
    (∀ q : ℚ, rollingMax highs n i = PF.fin q → rollingMin lows n i = PF.fin q →
      williams highs lows closes n i = PF.fin 0) ∧
    (∀ a b : ℚ, rollingMax highs n i = PF.fin a → rollingMin lows n i = PF.fin b →
      a ≠ b →
      williams highs lows closes n i =
        PF.fin ((-100) * (a - closes.getD i 0) / (a - b))) := by
  constructor
  · intro q h1 h2
    simp [williams, h1, h2, PF.ne]
  · intro a b h1 h2 hab
    simp [williams, williamsRaw, h1, h2, PF.ne, hab, PF.sub, PF.mul, PF.div,
      sub_ne_zero_of_ne hab]

/-- Witness for C7: a zero-range full window yields exactly `0`; a nonzero
range yields the finite Williams quotient. -/
theorem williams_zero_range_witness :
    williams [5, 5] [5, 5] [5, 5] 2 1 = PF.fin 0 ∧
    williams [10, 10] [0, 0] [9, 9] 2 1 = PF.fin ((-100) * ((10 : ℚ) - 9) / (10 - 0)) := by
  constructor
  · exact (williams_zero_range [5, 5] [5, 5] [5, 5] 2 1).1 5
      (by norm_num [rollingMax, windowSlice, List.max?])
      (by norm_num [rollingMin, windowSlice, List.min?])
  · exact (williams_zero_range [10, 10] [0, 0] [9, 9] 2 1).2 10 0
      (by norm_num [rollingMax, windowSlice, List.max?])
      (by norm_num [rollingMin, windowSlice, List.min?])
      (by norm_num)

/-- C8: `calculate_win_rate` is `0` on an empty list and otherwise the
fraction of trades with positive profit; `calculate_profit_factor` is `0`
on an empty list, `+inf` when the summed losses are zero and the summed
profits positive, and otherwise the gross profit over the absolute gross
loss; both are total functions and never raise. -/
theorem win_rate_profit_factor_spec :
    calculate_win_rate [] = 0 ∧
    (∀ ts : List Trade, ts ≠ [] →
      calculate_win_rate ts =
        ((ts.filter fun t => 0 < t.profit).length : ℚ) / (ts.length : ℚ)) ∧
    calculate_profit_factor [] = PF.fin 0 ∧
    (∀ ts : List Trade, ts ≠ [] →
      |((ts.filter fun t => t.profit < 0).map Trade.profit).sum| = 0 →
      0 < ((ts.filter fun t => 0 < t.profit).map Trade.profit).sum →
      calculate_profit_factor ts = PF.pinf) ∧
    (∀ ts : List Trade, ts ≠ [] →
      ¬ (|((ts.filter fun t => t.profit < 0).map Trade.profit).sum| = 0 ∧
          0 < ((ts.filter fun t => 0 < t.profit).map Trade.profit).sum) →
      calculate_profit_factor ts =
        PF.fin (((ts.filter fun t => 0 < t.profit).map Trade.profit).sum /
          |((ts.filter fun t => t.profit < 0).map Trade.profit).sum|)) := by
  refine ⟨by simp [calculate_win_rate], ?_, by simp [calculate_profit_factor], ?_, ?_⟩
  · intro ts h
    simp [calculate_win_rate, h]
  · intro ts h h0 hp
    simp only [calculate_profit_factor, if_neg h]
    rw [if_pos h0, if_pos hp]
  · intro ts h hno
    have hnn : 0 ≤ ((ts.filter fun t => 0 < t.profit).map Trade.profit).sum := by
      apply List.sum_nonneg
      intro x hx
      simp only [List.mem_map, List.mem_filter] at hx
      obtain ⟨t, ⟨-, ht⟩, rfl⟩ := hx
      exact (of_decide_eq_true ht).le
    simp only [calculate_profit_factor, if_neg h]
    by_cases hgl : |((ts.filter fun t => t.profit < 0).map Trade.profit).sum| = 0
    · have hgp : ¬ 0 < ((ts.filter fun t => 0 < t.profit).map Trade.profit).sum :=
        fun hp => hno ⟨hgl, hp⟩
      rw [if_pos hgl, if_neg hgp]
      have hz : ((ts.filter fun t => 0 < t.profit).map Trade.profit).sum = 0 :=
        le_antisymm (not_lt.mp hgp) hnn
      rw [hz, hgl]
      norm_num
    · rw [if_neg hgl]

/-- An all-winning sample trade for the C8 witness. -/
def winTrade : Trade := ⟨none, 0, 0, 0, 0, 1, 5, 0, 0, 0, ""⟩

/-- A losing sample trade for the C8 witness. -/
def lossTrade : Trade := ⟨none, 0, 0, 0, 0, 1, -5, 0, 0, 0, ""⟩

/-- Witness for C8 on singleton and two-element trade lists. -/
theorem win_rate_profit_factor_spec_witness :
    calculate_win_rate [winTrade] =
      ((([winTrade].filter fun t => 0 < t.profit).length : ℚ) / (([winTrade] : List Trade).length : ℚ)) ∧
    calculate_profit_factor [winTrade] = PF.pinf ∧
    calculate_profit_factor [winTrade, lossTrade] =
      PF.fin ((([winTrade, lossTrade].filter fun t => 0 < t.profit).map Trade.profit).sum /
        |(([winTrade, lossTrade].filter fun t => t.profit < 0).map Trade.profit).sum|) := by
  refine ⟨?_, ?_, ?_⟩
  · exact win_rate_profit_factor_spec.2.1 [winTrade] (by simp)
  · exact win_rate_profit_factor_spec.2.2.2.1 [winTrade] (by simp)
      (by norm_num [winTrade]) (by norm_num [winTrade])
  · exact win_rate_profit_factor_spec.2.2.2.2 [winTrade, lossTrade] (by simp)
      (by norm_num [winTrade, lossTrade])

/-- A `Long` simulator state used by the C4/C5 witnesses: entered at price
100 on bar 1. -/
def longState : SimState := ⟨1, 1000000, [], 100, some 0, 1⟩

/-- Bars on which all three exit conditions hold at scan index 1 against
`longState`: close 5 is a 95% loss (stop-loss), below the long MA 12.5
(death cross on the short MA too), and the Williams value `-50` exceeds a
sell threshold of `-60`. -/
def allExitBars : Bars :=
  { opens := [1, 2, 3]
    highs := [10, 10, 10]
    lows := [0, 0, 0]
    closes := [20, 5, 5]
    times := [0, 1, 2] }

/-- Parameters for `allExitBars`. -/
def allExitParams : Params :=
  { ma_short := 1
    ma_long := 2
    will_period_1 := 1
    will_buy_threshold_1 := 1
    will_period_2 := 1
    will_sell_threshold_2 := -60
    stop_loss := 1 / 100
    initial_capital := 1000000 }

/-- Witness for C4: with all three exit conditions simultaneously true at
scan index 1, the position closes at `open[2]` and the recorded reason is
picked by the priority chain. -/
theorem exit_priority_and_fill_witness :
    (stepFn .cross .cross allExitBars allExitParams longState 1).position = 0 ∧
    ∃ rec : Trade,
      (stepFn .cross .cross allExitBars allExitParams longState 1).trades =
        longState.trades ++ [rec] ∧
      rec.exit_price = openAt allExitBars 2 ∧
      rec.exit_index = 2 ∧
      rec.exit_reason =
        (if calculate_stop_loss longState.entry_price (closeAt allExitBars 1)
            allExitParams.stop_loss then "stop_loss"
         else if exitTrend .cross allExitBars allExitParams 1 then exitTrendReason .cross
         else "williams_overbought") :=
  exit_priority_and_fill .cross .cross allExitBars allExitParams longState 1 rfl
    (by norm_num [calculate_stop_loss, closeAt, allExitBars, allExitParams, longState])

/-- Witness for C5: a 1% loss threshold fires at close 99 after entry at
100, stays silent on a favorable move to 101, and while `Long` a true
stop-loss closes the position. -/
theorem stop_loss_spec_witness :
    calculate_stop_loss 100 99 (1 / 100) = true ∧
    calculate_stop_loss 100 101 (1 / 100) = false ∧
    ((stepFn .cross .cross allExitBars allExitParams longState 1).position = 0 ∧
      ∃ rec : Trade,
        (stepFn .cross .cross allExitBars allExitParams longState 1).trades =
          longState.trades ++ [rec] ∧
        rec.exit_reason = "stop_loss" ∧
        rec.exit_index = 2) :=
  ⟨(stop_loss_spec.1 100 99 (1 / 100)).mpr (by norm_num),
   stop_loss_spec.2.1 100 101 (1 / 100) (by norm_num) (by norm_num) (by norm_num),
   stop_loss_spec.2.2 .cross .cross allExitBars allExitParams longState 1 rfl
     (by norm_num [calculate_stop_loss, closeAt, allExitBars, allExitParams, longState])⟩

/-- Witness for C9 on the `flushBars` data. -/
theorem simulators_deterministic_witness :
    simulate_strategy_1 flushBars flushParams = simulate_strategy_1 flushBars flushParams ∧
    simulate_strategy_2 flushBars flushParams = simulate_strategy_2 flushBars flushParams ∧
    simulate_strategy_3 flushBars flushParams = simulate_strategy_3 flushBars flushParams ∧
    simulate_strategy_4 flushBars flushParams = simulate_strategy_4 flushBars flushParams :=
  simulators_deterministic flushBars flushBars flushParams flushParams rfl rfl
